import Mathlib

/-
  Verification of the flight-control sample
  (src/sample/linux/flight-control/flight_control_sample.cpp).

  Shallow embedding conventions:
  * The external vehicle link (telemetry subscription, command channel) is
    modelled as an environment record: boolean fields give the ack outcome
    of each one-shot call (verify / initPackageFromTopicList / startPackage /
    takeoff / land), and streams `Nat -> _` give the value returned by the
    k-th telemetry poll (`getValue<...>`), one index per evaluation of a
    polling-loop condition.
  * C `double`/`float` quantities that only flow through field arithmetic
    and order comparisons are modelled by exact rationals; the
    transcendental parts (toEulerAngle, the DEG2RAD conversions) are
    modelled over the reals.
  * The subscription lifecycle is recorded as an event list: `.started`
    when startPackage is acknowledged, `.removed` for each removePackage
    call, in program order.
-/

/-- `OpenProtocol::ErrorCode::CommonACK::FlightStatus` values read through
`TOPIC_STATUS_FLIGHT`. Only the constants the sample compares against are
distinguished; `STOPED` stands for the motors-off ground state. -/
inductive FlightStatus where
  | STOPED
  | ON_GROUND
  | IN_AIR
deriving DecidableEq, Repr

/-- `VehicleStatus::MODE_*` display modes read through
`TOPIC_STATUS_DISPLAYMODE`. The constructors are the constants the sample
mentions plus `MODE_NAVI_GO_HOME` and `MODE_MANUAL_CTRL` as representatives
of the remaining modes of the (extensible) enumeration. -/
inductive DisplayMode where
  | MODE_MANUAL_CTRL
  | MODE_ATTITUDE
  | MODE_P_GPS
  | MODE_ASSISTED_TAKEOFF
  | MODE_AUTO_TAKEOFF
  | MODE_AUTO_LANDING
  | MODE_NAVI_GO_HOME
  | MODE_ENGINE_START
deriving DecidableEq, Repr

/-- Subscription-package lifecycle events, in program order:
`started` = `startPackage` acknowledged success, `removed` = a
`removePackage` call was issued. -/
inductive SubEvent where
  | started
  | removed
deriving DecidableEq, Repr

/-- Terminal outcome of a maneuver, distinguishing the return paths of the
sample (each path prints a distinct message before returning). -/
inductive Outcome where
  | success
  | subscriptionFailed
  | actuationRejected
  | motorsNotStarted
  | stillOnGround
  | landingNotStarted
  | unexpectedMode
  | timeout
deriving DecidableEq, Repr

/-- Environment of `monitoredTakeoff` / `monitoredLanding`: ack outcomes of
the one-shot link calls plus the 10 Hz telemetry streams.  `actuationOk` is
the ack of `control->takeoff` (resp. `control->land`). -/
structure MonitorEnv where
  verifyOk : Bool
  initOk : Bool
  startOk : Bool
  actuationOk : Bool
  removeOk : Bool
  flightStatus : Nat → FlightStatus
  displayMode : Nat → DisplayMode

/-- Number of completed iterations of a polling loop of shape
`while (cont(t) && count < budget) { count++; }`, where `cont` reads the
telemetry values of poll instant `t`.  Returns the final value of `count`:
the number of consecutive polls (starting at `t`) for which `cont` held,
capped at `budget`. -/
def pollCount (cont : Nat → Bool) : Nat → Nat → Nat
  | _, 0 => 0
  | t, budget + 1 => if cont t then pollCount cont (t + 1) budget + 1 else 0

/-- Continuation condition of the "motors started" loop (lines 128-136):
keep polling while `FlightStatus != ON_GROUND && DisplayMode !=
MODE_ENGINE_START`. -/
def takeoffMotorsCont (env : MonitorEnv) (t : Nat) : Bool :=
  decide (env.flightStatus t ≠ FlightStatus.ON_GROUND) &&
  decide (env.displayMode t ≠ DisplayMode.MODE_ENGINE_START)

/-- Final value of `motorsNotStarted` (lines 126-136, budget
`timeoutCycles = 20`, polls start at instant 0). -/
def motorsNotStartedCount (env : MonitorEnv) : Nat :=
  pollCount (takeoffMotorsCont env) 0 20

/-- Continuation condition of the "in air" loop (lines 153-163): keep
polling while `FlightStatus != IN_AIR && (DisplayMode !=
MODE_ASSISTED_TAKEOFF || DisplayMode != MODE_AUTO_TAKEOFF)`. -/
def takeoffAscendCont (env : MonitorEnv) (t : Nat) : Bool :=
  decide (env.flightStatus t ≠ FlightStatus.IN_AIR) &&
  (decide (env.displayMode t ≠ DisplayMode.MODE_ASSISTED_TAKEOFF) ||
   decide (env.displayMode t ≠ DisplayMode.MODE_AUTO_TAKEOFF))

/-- Final value of `stillOnGround` (lines 151-163, budget
`timeoutCycles = 110`, polls start at instant `t`). -/
def stillOnGroundCount (env : MonitorEnv) (t : Nat) : Nat :=
  pollCount (takeoffAscendCont env) t 110

/-- The unbounded "finished takeoff" wait (lines 180-186): block while
`DisplayMode` is `MODE_ASSISTED_TAKEOFF` or `MODE_AUTO_TAKEOFF`.  The loop
has no cycle budget in the source, so the embedding carries explicit fuel;
`some u` means the loop exited and the settled-mode check of lines 188-191
reads poll instant `u`. -/
def settleWait (env : MonitorEnv) : Nat → Nat → Option Nat
  | 0, _ => none
  | fuel + 1, t =>
    if env.displayMode t = DisplayMode.MODE_ASSISTED_TAKEOFF ∨
       env.displayMode t = DisplayMode.MODE_AUTO_TAKEOFF then
      settleWait env fuel (t + 1)
    else some (t + 1)

/-- The settled-mode condition of lines 188-191 (and 510-513):
`DisplayMode != MODE_P_GPS || DisplayMode != MODE_ATTITUDE`.  Its `true`
branch prints the success message; its `false` branch is the
`UnexpectedMode` path. -/
def settledModeCheckPasses (m : DisplayMode) : Bool :=
  decide (m ≠ DisplayMode.MODE_P_GPS) || decide (m ≠ DisplayMode.MODE_ATTITUDE)

/-- `monitoredTakeoff` (lines 80-212).  Returns the outcome of the run and
the subscription lifecycle events, or `none` when the unbounded settle
wait outlives `fuel`. -/
def monitoredTakeoff (env : MonitorEnv) (fuel : Nat) :
    Option (Outcome × List SubEvent) :=
  if env.verifyOk = false then some (Outcome.subscriptionFailed, [])
  else if env.initOk = false then some (Outcome.subscriptionFailed, [])
  else if env.startOk = false then
    some (Outcome.subscriptionFailed, [SubEvent.removed])
  else if env.actuationOk = false then
    some (Outcome.actuationRejected, [SubEvent.started])
  else
    let motorsNotStarted := motorsNotStartedCount env
    if motorsNotStarted = 20 then
      some (Outcome.motorsNotStarted, [SubEvent.started, SubEvent.removed])
    else
      let t1 := motorsNotStarted + 1
      let stillOnGround := stillOnGroundCount env t1
      if stillOnGround = 110 then
        some (Outcome.stillOnGround, [SubEvent.started, SubEvent.removed])
      else
        match settleWait env fuel (t1 + stillOnGround + 1) with
        | none => none
        | some u =>
          if settledModeCheckPasses (env.displayMode u) then
            some (Outcome.success, [SubEvent.started, SubEvent.removed])
          else
            some (Outcome.unexpectedMode, [SubEvent.started, SubEvent.removed])

/-- Continuation condition of the "landing started" loop (lines 476-482):
keep polling while `DisplayMode != MODE_AUTO_LANDING`. -/
def landingStartCont (env : MonitorEnv) (t : Nat) : Bool :=
  decide (env.displayMode t ≠ DisplayMode.MODE_AUTO_LANDING)

/-- Final value of `landingNotStarted` (lines 474-482, budget 20). -/
def landingNotStartedCount (env : MonitorEnv) : Nat :=
  pollCount (landingStartCont env) 0 20

/-- The unbounded "finished landing" wait (lines 502-508): block while
`DisplayMode == MODE_AUTO_LANDING && FlightStatus == IN_AIR`. -/
def landingWait (env : MonitorEnv) : Nat → Nat → Option Nat
  | 0, _ => none
  | fuel + 1, t =>
    if env.displayMode t = DisplayMode.MODE_AUTO_LANDING ∧
       env.flightStatus t = FlightStatus.IN_AIR then
      landingWait env fuel (t + 1)
    else some (t + 1)

/-- `monitoredLanding` (lines 428-538), same conventions as
`monitoredTakeoff`. -/
def monitoredLanding (env : MonitorEnv) (fuel : Nat) :
    Option (Outcome × List SubEvent) :=
  if env.verifyOk = false then some (Outcome.subscriptionFailed, [])
  else if env.initOk = false then some (Outcome.subscriptionFailed, [])
  else if env.startOk = false then
    some (Outcome.subscriptionFailed, [SubEvent.removed])
  else if env.actuationOk = false then
    some (Outcome.actuationRejected, [SubEvent.started])
  else
    let landingNotStarted := landingNotStartedCount env
    if landingNotStarted = 20 then
      some (Outcome.landingNotStarted, [SubEvent.started, SubEvent.removed])
    else
      match landingWait env fuel (landingNotStarted + 1) with
      | none => none
      | some u =>
        if settledModeCheckPasses (env.displayMode u) then
          some (Outcome.success, [SubEvent.started, SubEvent.removed])
        else
          some (Outcome.unexpectedMode, [SubEvent.started, SubEvent.removed])

/-! ## moveByPositionOffset (lines 222-420) -/

/-- `Telemetry::Vector3f`, rational model (used for the local NED offset). -/
structure Vector3f where
  x : ℚ
  y : ℚ
  z : ℚ
deriving DecidableEq, Repr

/-- Loop constants of `moveByPositionOffset` (lines 231-236). -/
def timeoutInMilSec : Nat := 10000

def controlFreqInHz : Nat := 50

def cycleTimeInMs : Nat := 1000 / controlFreqInHz

def outOfControlBoundsTimeLimit : Int := 10 * (cycleTimeInMs : Int)

def withinControlBoundsTimeReqmt : Nat := 50 * cycleTimeInMs

/-- `int speedFactor = 2` (line 303), as the rational it is compared with. -/
def speedFactor : ℚ := 2

/-- `float zDeadband = 0.12` (line 308). -/
def zDeadband : ℚ := 12 / 100

/-- Caller-supplied goal plus the entry-time conversions of
`moveByPositionOffset`:
* `yawDesiredRad` / `yawThresholdInRad` are `DEG2RAD * yawDesired` and
  `DEG2RAD * yawThresholdInDeg` (lines 291-292), taken as parameters here
  since `DEG2RAD` is irrational; their relation to the degree inputs is
  verified over the reals separately.
* `currentAltitude` is `currentGPS.altitude` read before the loop and used
  on line 331.
* `yawCmdSent` is the constant `yawDesiredRad / DEG2RAD` sent with every
  position command (line 338); over the reals this equals the original
  degree input. -/
structure MoveParams where
  xOffsetDesired : ℚ
  yOffsetDesired : ℚ
  zOffsetDesired : ℚ
  yawDesiredRad : ℚ
  yawThresholdInRad : ℚ
  posThresholdInM : ℚ
  currentAltitude : ℚ
  yawCmdSent : ℚ
deriving DecidableEq, Repr

/-- Telemetry consumed by one control cycle: `localOffset` is the value
`localOffsetFromGpsOffset` computes from the cycle's `TOPIC_GPS_FUSED`
sample (line 347), `yawInRad` is `toEulerAngle(q).z` from the cycle's
`TOPIC_QUATERNION` sample (lines 344-345). -/
structure CycleInput where
  localOffset : Vector3f
  yawInRad : ℚ
deriving DecidableEq, Repr

/-- Mutable state of the main control loop. -/
structure MoveState where
  elapsedTimeInMs : Nat
  withinBoundsCounter : Int
  outOfBounds : Int
  xCmd : ℚ
  yCmd : ℚ
  zCmd : ℚ
deriving DecidableEq, Repr

/-- Initial per-axis command (lines 315-329): the desired offset clamped to
`speedFactor` in magnitude, keeping its sign. -/
def initialAxisCmd (offsetDesired : ℚ) : ℚ :=
  if offsetDesired > 0 then
    if offsetDesired < speedFactor then offsetDesired else speedFactor
  else if offsetDesired < 0 then
    if offsetDesired > -1 * speedFactor then offsetDesired else -1 * speedFactor
  else 0

/-- State on entering the loop: counters zero (lines 299-302), commands
from lines 315-331.  At entry `currentGPS == originGPS`, so the initial
`localOffset` is exactly `(0,0,0)` and the initial remaining offsets equal
the desired offsets (lines 277-288). -/
def initialState (p : MoveParams) : MoveState :=
  { elapsedTimeInMs := 0
    withinBoundsCounter := 0
    outOfBounds := 0
    xCmd := initialAxisCmd p.xOffsetDesired
    yCmd := initialAxisCmd p.yOffsetDesired
    zCmd := p.currentAltitude + p.zOffsetDesired }

/-- `xOffsetRemaining` for a cycle (line 350). -/
def xRemainingAt (p : MoveParams) (inp : CycleInput) : ℚ :=
  p.xOffsetDesired - inp.localOffset.x

/-- `yOffsetRemaining` for a cycle (line 351). -/
def yRemainingAt (p : MoveParams) (inp : CycleInput) : ℚ :=
  p.yOffsetDesired - inp.localOffset.y

/-- `zOffsetRemaining` for a cycle (line 352). -/
def zRemainingAt (p : MoveParams) (inp : CycleInput) : ℚ :=
  p.zOffsetDesired - (-inp.localOffset.z)

/-- The within-bounds test of lines 360-363. -/
def cycleInBounds (p : MoveParams) (inp : CycleInput) : Bool :=
  decide (|xRemainingAt p inp| < p.posThresholdInM) &&
  decide (|yRemainingAt p inp| < p.posThresholdInM) &&
  decide (|zRemainingAt p inp| < zDeadband) &&
  decide (|inp.yawInRad - p.yawDesiredRad| < p.yawThresholdInRad)

/-- Counter accumulation (lines 364-375): within-bounds cycles add one
cycle time to `withinBoundsCounter`; out-of-bounds cycles add to
`outOfBounds` only once `withinBoundsCounter` is nonzero. -/
def applyCounterUpdate (withinBoundsCounter outOfBounds : Int)
    (inBounds : Bool) : Int × Int :=
  if inBounds then (withinBoundsCounter + (cycleTimeInMs : Int), outOfBounds)
  else if withinBoundsCounter ≠ 0 then
    (withinBoundsCounter, outOfBounds + (cycleTimeInMs : Int))
  else (withinBoundsCounter, outOfBounds)

/-- Counter reset (lines 377-381): when `outOfBounds` exceeds
`outOfControlBoundsTimeLimit`, both counters reset to zero. -/
def applyCounterReset (counters : Int × Int) : Int × Int :=
  if outOfControlBoundsTimeLimit < counters.2 then (0, 0) else counters

/-- One iteration of the main loop body (lines 337-386), *after* the
command of this cycle has been sent: advance elapsed time, refresh the
remaining offsets, update the per-axis commands (lines 355-358: only when
the remaining magnitude drops below `speedFactor`), and update the
convergence counters. -/
def loopStep (p : MoveParams) (s : MoveState) (inp : CycleInput) : MoveState :=
  let xRem := xRemainingAt p inp
  let yRem := yRemainingAt p inp
  let counters :=
    applyCounterReset
      (applyCounterUpdate s.withinBoundsCounter s.outOfBounds
        (cycleInBounds p inp))
  { elapsedTimeInMs := s.elapsedTimeInMs + cycleTimeInMs
    withinBoundsCounter := counters.1
    outOfBounds := counters.2
    xCmd := if |xRem| < speedFactor then xRem else s.xCmd
    yCmd := if |yRem| < speedFactor then yRem else s.yCmd
    zCmd := s.zCmd }

/-- State after `k` executed loop bodies, feeding body `k` the telemetry of
cycle `k`. -/
def loopIter (p : MoveParams) (inputs : Nat → CycleInput) : Nat → MoveState
  | 0 => initialState p
  | k + 1 => loopStep p (loopIter p inputs k) (inputs k)

/-- Loop-exit condition as observed between bodies: the `while` guard of
line 334 has failed (`elapsedTimeInMs >= timeoutInMilSec`) or the break of
lines 383-386 fires (`withinBoundsCounter >= withinControlBoundsTimeReqmt`). -/
def loopExit (s : MoveState) : Bool :=
  decide (timeoutInMilSec ≤ s.elapsedTimeInMs) ||
  decide ((withinControlBoundsTimeReqmt : Int) ≤ s.withinBoundsCounter)

/-- First index `≥ t` (within `fuel` steps) at which the loop exits. -/
def loopExitIndexAux (p : MoveParams) (inputs : Nat → CycleInput) :
    Nat → Nat → Nat
  | 0, t => t
  | fuel + 1, t =>
    if loopExit (loopIter p inputs t) then t
    else loopExitIndexAux p inputs fuel (t + 1)

/-- Number of loop bodies executed before the loop exits.  A budget of
`timeoutInMilSec / cycleTimeInMs` (= 500) bodies always suffices because
each body adds `cycleTimeInMs` to the elapsed time. -/
def loopExitIndex (p : MoveParams) (inputs : Nat → CycleInput) : Nat :=
  loopExitIndexAux p inputs (timeoutInMilSec / cycleTimeInMs) 0

/-- The loop state when the loop exits. -/
def moveLoopFinal (p : MoveParams) (inputs : Nat → CycleInput) : MoveState :=
  loopIter p inputs (loopExitIndex p inputs)

/-- The classification of lines 399-419: `ACK::FAIL` ("Task timeout!") when
`elapsedTimeInMs >= timeoutInMilSec` on exit, else `ACK::SUCCESS`. -/
def moveLoopOutcome (p : MoveParams) (inputs : Nat → CycleInput) : Outcome :=
  if timeoutInMilSec ≤ (moveLoopFinal p inputs).elapsedTimeInMs then
    Outcome.timeout
  else Outcome.success

/-- Number of `emergencyBrake()` calls issued by the brake loop of lines
392-397 when entered with counter `brakeCounter`. -/
def brakeLoop (brakeCounter : Nat) : Nat :=
  if h : brakeCounter < withinControlBoundsTimeReqmt then
    brakeLoop (brakeCounter + cycleTimeInMs) + 1
  else 0
termination_by withinControlBoundsTimeReqmt - brakeCounter
decreasing_by
  have hc : cycleTimeInMs = 20 := rfl
  have hr : withinControlBoundsTimeReqmt = 1000 := rfl
  omega

/-- One `positionAndYawCtrl` command (lines 337-338). -/
structure PosYawCmd where
  x : ℚ
  y : ℚ
  z : ℚ
  yaw : ℚ
deriving DecidableEq, Repr

/-- The command sent at the start of loop body `k`, built from the state
entering that body (the commands are updated only after sending). -/
def posYawCmdAt (p : MoveParams) (inputs : Nat → CycleInput) (k : Nat) :
    PosYawCmd :=
  let s := loopIter p inputs k
  ⟨s.xCmd, s.yCmd, s.zCmd, p.yawCmdSent⟩

/-- Environment of `moveByPositionOffset`: acks of the subscription calls
plus the per-cycle telemetry. -/
structure MoveEnv where
  verifyOk : Bool
  initOk : Bool
  startOk : Bool
  removeOk : Bool
  inputs : Nat → CycleInput

/-- Observable result of one `moveByPositionOffset` run. -/
structure MoveResult where
  outcome : Outcome
  events : List SubEvent
  posYawCmds : List PosYawCmd
  brakeCmdCount : Nat
deriving Repr

/-- `moveByPositionOffset` (lines 222-420): subscription setup (lines
241-271), the main closed loop, the mandatory brake loop, teardown, and
the final `ACK::FAIL`/`ACK::SUCCESS` classification.  The teardown ack
(`env.removeOk`) is only a warning in the source and does not influence
the outcome. -/
def moveByPositionOffset (env : MoveEnv) (p : MoveParams) : MoveResult :=
  if env.verifyOk = false then ⟨Outcome.subscriptionFailed, [], [], 0⟩
  else if env.initOk = false then ⟨Outcome.subscriptionFailed, [], [], 0⟩
  else if env.startOk = false then
    ⟨Outcome.subscriptionFailed, [SubEvent.removed], [], 0⟩
  else
    ⟨moveLoopOutcome p env.inputs,
     [SubEvent.started, SubEvent.removed],
     (List.range (loopExitIndex p env.inputs)).map (posYawCmdAt p env.inputs),
     brakeLoop 0⟩

/-! ## Real-valued quantities: DEG2RAD and toEulerAngle -/

/-- Modelled from the spec: the conversion constant `DEG2RAD` is defined in
the sample's header (`flight_control_sample.hpp`), which is not part of the
provided sources; per the spec's "degree inputs converted once at entry"
it is the degree-to-radian factor π/180. -/
noncomputable def DEG2RAD : ℝ := Real.pi / 180

/-- `yawDesiredRad = DEG2RAD * yawDesired` (line 291). -/
noncomputable def yawDesiredRadOf (yawDesired : ℝ) : ℝ := DEG2RAD * yawDesired

/-- `yawThresholdInRad = DEG2RAD * yawThresholdInDeg` (line 292). -/
noncomputable def yawThresholdInRadOf (yawThresholdInDeg : ℝ) : ℝ :=
  DEG2RAD * yawThresholdInDeg

/-- The yaw argument passed to `positionAndYawCtrl` on every cycle:
`yawDesiredRad / DEG2RAD` (line 338). -/
noncomputable def yawCmdSentValue (yawDesired : ℝ) : ℝ :=
  yawDesiredRadOf yawDesired / DEG2RAD

/-- `Telemetry::Vector3f` holding real-valued Euler angles. -/
structure Vector3fReal where
  x : ℝ
  y : ℝ
  z : ℝ

/-- The quaternion telemetry type (`TypeMap<TOPIC_QUATERNION>::type`). -/
structure QuaternionData where
  q0 : ℝ
  q1 : ℝ
  q2 : ℝ
  q3 : ℝ

/-- C library `atan2(y, x)` on the reals (quadrant-aware arctangent). -/
noncomputable def atan2 (y x : ℝ) : ℝ :=
  if 0 < x then Real.arctan (y / x)
  else if x < 0 ∧ 0 ≤ y then Real.arctan (y / x) + Real.pi
  else if x < 0 ∧ y < 0 then Real.arctan (y / x) - Real.pi
  else if 0 < y then Real.pi / 2
  else if y < 0 then -(Real.pi / 2)
  else 0

/-- The raw pitch term `t2` before clamping (lines 567-568). -/
noncomputable def pitchArgRaw (quaternionData : QuaternionData) : ℝ :=
  -2 * (quaternionData.q1 * quaternionData.q3 -
        quaternionData.q0 * quaternionData.q2)

/-- `t2` after the two clamping steps of lines 573-574. -/
noncomputable def clampedPitchArg (quaternionData : QuaternionData) : ℝ :=
  let t2 := pitchArgRaw quaternionData
  let t2a := if 1 < t2 then 1 else t2
  if t2a < -1 then -1 else t2a

/-- `toEulerAngle` (lines 558-581). -/
noncomputable def toEulerAngle (quaternionData : QuaternionData) : Vector3fReal :=
  let q2sqr := quaternionData.q2 * quaternionData.q2
  let t0 := -2 * (q2sqr + quaternionData.q3 * quaternionData.q3) + 1
  let t1 := 2 * (quaternionData.q1 * quaternionData.q2 +
                 quaternionData.q0 * quaternionData.q3)
  let t3 := 2 * (quaternionData.q2 * quaternionData.q3 +
                 quaternionData.q0 * quaternionData.q1)
  let t4 := -2 * (quaternionData.q1 * quaternionData.q1 + q2sqr) + 1
  ⟨Real.arcsin (clampedPitchArg quaternionData), atan2 t3 t4, atan2 t1 t0⟩

/-! ## Concrete environments used by witnesses and counterexamples -/

/-- Takeoff run whose telemetry settles in `MODE_NAVI_GO_HOME` after the
transition modes clear: motors confirm at poll 0 (`MODE_ENGINE_START`),
the craft is `IN_AIR` throughout, and every later poll reports
`MODE_NAVI_GO_HOME`. -/
def envTakeoffBadMode : MonitorEnv :=
  { verifyOk := true
    initOk := true
    startOk := true
    actuationOk := true
    removeOk := true
    flightStatus := fun _ => FlightStatus.IN_AIR
    displayMode := fun t =>
      if t = 0 then DisplayMode.MODE_ENGINE_START
      else DisplayMode.MODE_NAVI_GO_HOME }

/-- Landing run whose telemetry settles in `MODE_NAVI_GO_HOME`: auto-landing
mode at polls 0-1, touchdown immediately (not `IN_AIR`), then
`MODE_NAVI_GO_HOME`. -/
def envLandingBadMode : MonitorEnv :=
  { verifyOk := true
    initOk := true
    startOk := true
    actuationOk := true
    removeOk := true
    flightStatus := fun _ => FlightStatus.STOPED
    displayMode := fun t =>
      if t ≤ 1 then DisplayMode.MODE_AUTO_LANDING
      else DisplayMode.MODE_NAVI_GO_HOME }

/-- Telemetry stuck at `FlightStatus = ON_GROUND` (motors spinning on the
ground) forever, with an ordinary display mode. -/
def envStuckOnGround : MonitorEnv :=
  { verifyOk := true
    initOk := true
    startOk := true
    actuationOk := true
    removeOk := true
    flightStatus := fun _ => FlightStatus.ON_GROUND
    displayMode := fun _ => DisplayMode.MODE_MANUAL_CTRL }

/-- Telemetry on which the motors never start: status stays `STOPED` and
the display mode never becomes `MODE_ENGINE_START`. -/
def envNeverStarts : MonitorEnv :=
  { verifyOk := true
    initOk := true
    startOk := true
    actuationOk := true
    removeOk := true
    flightStatus := fun _ => FlightStatus.STOPED
    displayMode := fun _ => DisplayMode.MODE_MANUAL_CTRL }

/-- Run in which the subscription starts but the takeoff (or land)
actuation request is rejected. -/
def envActuationRejected : MonitorEnv :=
  { verifyOk := true
    initOk := true
    startOk := true
    actuationOk := false
    removeOk := true
    flightStatus := fun _ => FlightStatus.STOPED
    displayMode := fun _ => DisplayMode.MODE_MANUAL_CTRL }

/-- Stationary telemetry for the position-control loop. -/
def inputs0 : Nat → CycleInput := fun _ => ⟨⟨0, 0, 0⟩, 0⟩

/-- A concrete goal: zero offsets, zero yaw, thresholds 1, start altitude
100. -/
def p0 : MoveParams :=
  { xOffsetDesired := 0
    yOffsetDesired := 0
    zOffsetDesired := 0
    yawDesiredRad := 0
    yawThresholdInRad := 1
    posThresholdInM := 1
    currentAltitude := 100
    yawCmdSent := 0 }

/-- A move environment with a healthy subscription. -/
def envMove0 : MoveEnv :=
  { verifyOk := true
    initOk := true
    startOk := true
    removeOk := true
    inputs := inputs0 }

/-- A loop state whose out-of-bounds counter sits at the grace limit with a
nonzero dwell counter. -/
def sHot : MoveState :=
  { elapsedTimeInMs := 0
    withinBoundsCounter := 20
    outOfBounds := 200
    xCmd := 0
    yCmd := 0
    zCmd := 0 }

/-- An out-of-bounds cycle input for goal `p0` (yaw error 5 exceeds the
threshold 1). -/
def inpHot : CycleInput := ⟨⟨0, 0, 0⟩, 5⟩

/-- A cycle input for goal `p0` with remaining x- and y-offset 5, i.e. both
axes at least `speedFactor` away. -/
def inpFar : CycleInput := ⟨⟨-5, -5, 0⟩, 0⟩

/-- A cycle input for goal `p0` with both axes within `speedFactor`. -/
def inpNear : CycleInput := ⟨⟨0, 0, 0⟩, 0⟩

/-- A loop state with distinctive command values, to observe retention. -/
def sStale : MoveState :=
  { elapsedTimeInMs := 0
    withinBoundsCounter := 0
    outOfBounds := 0
    xCmd := 7
    yCmd := 7
    zCmd := 7 }

/-! ## Helper lemmas -/

/-- A polling loop exhausts its budget exactly when the continuation
condition holds at every poll of the budget window. -/
theorem pollCount_eq_budget_iff (cont : Nat → Bool) :
    ∀ (budget t : Nat),
      pollCount cont t budget = budget ↔ ∀ i, i < budget → cont (t + i) = true := by
  intro budget
  induction budget with
  | zero => intro t; simp [pollCount]
  | succ b ih =>
    intro t
    by_cases h : cont t = true
    · rw [pollCount]
      rw [h]
      simp only [if_true]
      constructor
      · intro hc i hi
        have hb : pollCount cont (t + 1) b = b := by omega
        rcases Nat.eq_zero_or_pos i with hz | hpos
        · rw [hz]; simpa using h
        · have : i - 1 < b := by omega
          have := (ih (t + 1)).mp hb (i - 1) this
          have harg : t + 1 + (i - 1) = t + i := by omega
          rwa [harg] at this
      · intro hall
        have : ∀ i, i < b → cont (t + 1 + i) = true := by
          intro i hi
          have := hall (i + 1) (by omega)
          have harg : t + (i + 1) = t + 1 + i := by omega
          rwa [harg] at this
        have := (ih (t + 1)).mpr this
        omega
    · rw [pollCount]
      rw [Bool.not_eq_true] at h
      rw [h]
      simp only [Bool.false_eq_true, if_false]
      constructor
      · intro hc; omega
      · intro hall
        have := hall 0 (by omega)
        simp only [Nat.add_zero] at this
        rw [h] at this
        cases this

/-- Each loop body advances the elapsed time by exactly one cycle time. -/
theorem elapsed_loopIter (p : MoveParams) (inputs : Nat → CycleInput) :
    ∀ k, (loopIter p inputs k).elapsedTimeInMs = cycleTimeInMs * k := by
  intro k
  induction k with
  | zero => rfl
  | succ n ih =>
    show (loopStep p (loopIter p inputs n) (inputs n)).elapsedTimeInMs = _
    rw [loopStep]
    simp only []
    rw [ih]
    ring

/-- After `timeoutInMilSec / cycleTimeInMs` bodies, the loop-exit condition
holds (the elapsed time has reached the ceiling). -/
theorem loopExit_at_budget (p : MoveParams) (inputs : Nat → CycleInput) :
    loopExit (loopIter p inputs (timeoutInMilSec / cycleTimeInMs)) = true := by
  rw [loopExit]
  rw [elapsed_loopIter]
  have h : (decide (timeoutInMilSec ≤ cycleTimeInMs * (timeoutInMilSec / cycleTimeInMs))) = true := by
    decide
  rw [h]
  rw [Bool.true_or]

/-- `loopExitIndexAux` finds an exit state, stays within its fuel window,
and is minimal, provided the end of the window is an exit state. -/
theorem loopExitIndexAux_spec (p : MoveParams) (inputs : Nat → CycleInput) :
    ∀ (fuel t : Nat), loopExit (loopIter p inputs (t + fuel)) = true →
      loopExitIndexAux p inputs fuel t ≤ t + fuel ∧
      loopExit (loopIter p inputs (loopExitIndexAux p inputs fuel t)) = true ∧
      ∀ j, t ≤ j → j < loopExitIndexAux p inputs fuel t →
        loopExit (loopIter p inputs j) = false := by
  intro fuel
  induction fuel with
  | zero =>
    intro t hend
    rw [loopExitIndexAux]
    refine ⟨by omega, by simpa using hend, ?_⟩
    intro j h1 h2
    omega
  | succ f ih =>
    intro t hend
    rw [loopExitIndexAux]
    by_cases h : loopExit (loopIter p inputs t) = true
    · rw [h]
      simp only [if_true]
      exact ⟨by omega, h, fun j h1 h2 => by omega⟩
    · rw [Bool.not_eq_true] at h
      rw [h]
      simp only [Bool.false_eq_true, if_false]
      have harg : t + 1 + f = t + (f + 1) := by omega
      have := ih (t + 1) (by rwa [harg])
      refine ⟨by omega, this.2.1, ?_⟩
      intro j h1 h2
      rcases Nat.eq_or_lt_of_le h1 with heq | hlt
      · rwa [← heq]
      · exact this.2.2 j (by omega) h2

/-- The loop exits after at most `timeoutInMilSec / cycleTimeInMs` = 500
bodies, the state at `loopExitIndex` satisfies the exit condition, and no
earlier state does. -/
theorem loopExitIndex_spec (p : MoveParams) (inputs : Nat → CycleInput) :
    loopExitIndex p inputs ≤ timeoutInMilSec / cycleTimeInMs ∧
    loopExit (loopIter p inputs (loopExitIndex p inputs)) = true ∧
    ∀ j, j < loopExitIndex p inputs → loopExit (loopIter p inputs j) = false := by
  have h := loopExitIndexAux_spec p inputs (timeoutInMilSec / cycleTimeInMs) 0
    (by simpa using loopExit_at_budget p inputs)
  rw [loopExitIndex]
  exact ⟨by omega, h.2.1, fun j hj => h.2.2 j (by omega) hj⟩

/-- The loop runs at least one body: the entry state is not an exit state. -/
theorem loopExitIndex_pos (p : MoveParams) (inputs : Nat → CycleInput) :
    0 < loopExitIndex p inputs := by
  have h := loopExitIndex_spec p inputs
  by_contra hc
  have h0 : loopExitIndex p inputs = 0 := by omega
  have := h.2.1
  rw [h0] at this
  have hinit : loopExit (loopIter p inputs 0) = false := rfl
  rw [hinit] at this
  cases this

/-- The brake loop entered with counter `1000 - 20 * n` (that is,
`withinControlBoundsTimeReqmt - cycleTimeInMs * n`) issues exactly `n`
brake commands, for `n ≤ 50`. -/
theorem brakeLoop_from : ∀ n : Nat, n ≤ 50 → brakeLoop (1000 - 20 * n) = n := by
  have hc : cycleTimeInMs = 20 := rfl
  have hr : withinControlBoundsTimeReqmt = 1000 := rfl
  intro n
  induction n with
  | zero =>
    intro h0
    rw [brakeLoop]
    rw [dif_neg (by omega)]
  | succ k ih =>
    intro hn
    rw [brakeLoop]
    rw [dif_pos (by omega)]
    rw [hc]
    have harg : 1000 - 20 * (k + 1) + 20 = 1000 - 20 * k := by omega
    rw [harg, ih (by omega)]

/-- The brake loop of lines 392-397 issues exactly 50 =
`withinControlBoundsTimeReqmt / cycleTimeInMs` brake commands. -/
theorem brakeLoop_zero : brakeLoop 0 = 50 := by
  have h := brakeLoop_from 50 (by omega)
  norm_num at h
  exact h

/-! ## Claims -/

/-- C1: the claim says the settled-mode check after takeoff/landing accepts
only `MODE_P_GPS` or `MODE_ATTITUDE` and reports `UnexpectedMode` (returning
false) for every other settled mode.  The code's condition
`mode != MODE_P_GPS || mode != MODE_ATTITUDE` is instead true for *every*
mode, so the `UnexpectedMode` branch is unreachable: a takeoff (resp.
landing) whose telemetry settles in `MODE_NAVI_GO_HOME` still returns
success. -/
theorem C1_final_mode_check_bug :
    (∀ m : DisplayMode, settledModeCheckPasses m = true) ∧
    monitoredTakeoff envTakeoffBadMode 1 =
      some (Outcome.success, [SubEvent.started, SubEvent.removed]) ∧
    envTakeoffBadMode.displayMode 3 = DisplayMode.MODE_NAVI_GO_HOME ∧
    monitoredLanding envLandingBadMode 1 =
      some (Outcome.success, [SubEvent.started, SubEvent.removed]) ∧
    envLandingBadMode.displayMode 2 = DisplayMode.MODE_NAVI_GO_HOME := by
  refine ⟨?_, rfl, rfl, rfl, rfl⟩
  intro m
  cases m <;> rfl

set_option maxRecDepth 10000 in
/-- C2 counterexample: a telemetry stream stuck at `FlightStatus =
ON_GROUND` forever does *not* make `monitoredTakeoff` exhaust the motors
phase and report `MotorsNotStarted` — the motors phase exits immediately
(count 0, since the loop continues only while `FlightStatus != ON_GROUND`)
and the run fails later as `StillOnGround`. -/
theorem C2_counterexample :
    monitoredTakeoff envStuckOnGround 1 =
      some (Outcome.stillOnGround, [SubEvent.started, SubEvent.removed]) ∧
    motorsNotStartedCount envStuckOnGround = 0 := ⟨rfl, rfl⟩

/-- C2 (amended): the motors-spinning phase polls while `FlightStatus ≠
ON_GROUND` and `DisplayMode ≠ MODE_ENGINE_START`; it exhausts its 20-cycle
budget exactly when all 20 polls satisfy that continuation condition, and
in that case (on the ack-success path) `monitoredTakeoff` reports
`MotorsNotStarted`.  Dually, the phase is passed as soon as some poll sees
`ON_GROUND` or `MODE_ENGINE_START`. -/
theorem C2_amended_motors_phase (env : MonitorEnv) :
    (motorsNotStartedCount env = 20 ↔
      ∀ i, i < 20 → takeoffMotorsCont env i = true) ∧
    (env.verifyOk = true → env.initOk = true → env.startOk = true →
      env.actuationOk = true → motorsNotStartedCount env = 20 →
      ∀ fuel, monitoredTakeoff env fuel =
        some (Outcome.motorsNotStarted, [SubEvent.started, SubEvent.removed])) := by
  constructor
  · have h := pollCount_eq_budget_iff (takeoffMotorsCont env) 20 0
    rw [motorsNotStartedCount]
    simpa using h
  · intro h1 h2 h3 h4 h5 fuel
    rw [monitoredTakeoff]
    rw [h1, h2, h3, h4]
    simp only [Bool.true_eq_false, if_false]
    rw [if_pos h5]

/-- C2 witness: the amended statement applied to a stream on which the
motors never start (`STOPED` status, ordinary display mode throughout). -/
theorem C2_witness :
    motorsNotStartedCount envNeverStarts = 20 ∧
    monitoredTakeoff envNeverStarts 0 =
      some (Outcome.motorsNotStarted, [SubEvent.started, SubEvent.removed]) := by
  have h := C2_amended_motors_phase envNeverStarts
  have hcount : motorsNotStartedCount envNeverStarts = 20 :=
    h.1.mpr (by decide)
  exact ⟨hcount, h.2 rfl rfl rfl rfl hcount 0⟩

/-- C3: the claim says a started subscription package is removed on every
exit path.  On the path where the subscription starts but the takeoff
(resp. land) actuation request is rejected (lines 118-123 resp. 466-471),
the function returns `false` *without* `removePackage`: the recorded
lifecycle is `[started]` with no `removed` event. -/
theorem C3_actuation_reject_leaks_subscription :
    monitoredTakeoff envActuationRejected 0 =
      some (Outcome.actuationRejected, [SubEvent.started]) ∧
    monitoredLanding envActuationRejected 0 =
      some (Outcome.actuationRejected, [SubEvent.started]) ∧
    SubEvent.removed ∉ [SubEvent.started] := ⟨rfl, rfl, by decide⟩

/-- One counter update-then-reset step preserves non-negativity of both
counters and keeps `outOfBounds` at or below the grace limit. -/
theorem counters_step_bounds (w o : Int) (b : Bool) (hw : 0 ≤ w) (ho : 0 ≤ o)
    (hol : o ≤ outOfControlBoundsTimeLimit) :
    0 ≤ (applyCounterReset (applyCounterUpdate w o b)).1 ∧
    0 ≤ (applyCounterReset (applyCounterUpdate w o b)).2 ∧
    (applyCounterReset (applyCounterUpdate w o b)).2 ≤
      outOfControlBoundsTimeLimit := by
  have hl : outOfControlBoundsTimeLimit = 200 := rfl
  have hc : ((cycleTimeInMs : Nat) : Int) = 20 := rfl
  unfold applyCounterUpdate applyCounterReset
  split_ifs <;> simp_all <;> omega

/-- C4: throughout the control loop the convergence counters are
non-negative (and `outOfBounds` never ends a cycle above the grace limit);
`outOfBounds` accumulates only when `withinBoundsCounter` is already
nonzero; and whenever the accumulated `outOfBounds` exceeds the grace limit
`outOfControlBoundsTimeLimit`, the same cycle resets both counters to
zero. -/
theorem C4_counter_invariants (p : MoveParams) (inputs : Nat → CycleInput) :
    (∀ k, 0 ≤ (loopIter p inputs k).withinBoundsCounter ∧
          0 ≤ (loopIter p inputs k).outOfBounds ∧
          (loopIter p inputs k).outOfBounds ≤ outOfControlBoundsTimeLimit) ∧
    (∀ (w o : Int) (inBounds : Bool), w = 0 →
        (applyCounterUpdate w o inBounds).2 = o) ∧
    (∀ (s : MoveState) (inp : CycleInput),
        outOfControlBoundsTimeLimit <
          (applyCounterUpdate s.withinBoundsCounter s.outOfBounds
            (cycleInBounds p inp)).2 →
        (loopStep p s inp).withinBoundsCounter = 0 ∧
        (loopStep p s inp).outOfBounds = 0) := by
  refine ⟨?_, ?_, ?_⟩
  · intro k
    induction k with
    | zero =>
      refine ⟨le_refl 0, le_refl 0, ?_⟩
      show (0 : Int) ≤ outOfControlBoundsTimeLimit
      decide
    | succ n ih =>
      exact counters_step_bounds (loopIter p inputs n).withinBoundsCounter
        (loopIter p inputs n).outOfBounds (cycleInBounds p (inputs n))
        ih.1 ih.2.1 ih.2.2
  · intro w o b hw
    rw [applyCounterUpdate]
    split_ifs with h1 h2
    · rfl
    · exact absurd hw h2
    · rfl
  · intro s inp h
    constructor
    · show (applyCounterReset (applyCounterUpdate s.withinBoundsCounter
        s.outOfBounds (cycleInBounds p inp))).1 = 0
      rw [applyCounterReset, if_pos h]
    · show (applyCounterReset (applyCounterUpdate s.withinBoundsCounter
        s.outOfBounds (cycleInBounds p inp))).2 = 0
      rw [applyCounterReset, if_pos h]

/-- Feeding state `sHot` (dwell 20, out-of-bounds 200) the out-of-bounds
cycle `inpHot` accumulates past the grace limit (200 < 220). -/
theorem sHot_update_exceeds :
    outOfControlBoundsTimeLimit <
      (applyCounterUpdate sHot.withinBoundsCounter sHot.outOfBounds
        (cycleInBounds p0 inpHot)).2 := by
  have h4 : ¬ (|inpHot.yawInRad - p0.yawDesiredRad| < p0.yawThresholdInRad) := by
    show ¬ (|(5 : ℚ) - 0| < 1)
    norm_num
  have hb : cycleInBounds p0 inpHot = false := by
    rw [cycleInBounds, decide_eq_false h4, Bool.and_false]
  rw [hb, applyCounterUpdate]
  norm_num [sHot, outOfControlBoundsTimeLimit, cycleTimeInMs, controlFreqInHz]

/-- C4 witness: the invariants evaluated on concrete data — the stationary
run `p0`/`inputs0` after two cycles, a zero dwell counter with pending
out-of-bounds value 5, and the state `sHot` (dwell 20, out-of-bounds 200)
fed the out-of-bounds cycle `inpHot`, which pushes the counter to 220 and
forces the joint reset. -/
theorem C4_witness :
    (0 ≤ (loopIter p0 inputs0 2).withinBoundsCounter ∧
     0 ≤ (loopIter p0 inputs0 2).outOfBounds ∧
     (loopIter p0 inputs0 2).outOfBounds ≤ outOfControlBoundsTimeLimit) ∧
    (applyCounterUpdate 0 5 false).2 = 5 ∧
    ((loopStep p0 sHot inpHot).withinBoundsCounter = 0 ∧
     (loopStep p0 sHot inpHot).outOfBounds = 0) :=
  ⟨(C4_counter_invariants p0 inputs0).1 2,
   (C4_counter_invariants p0 inputs0).2.1 0 5 false rfl,
   (C4_counter_invariants p0 inputs0).2.2 sHot inpHot sHot_update_exceeds⟩

/-- C5: the control loop always terminates — within `timeoutInMilSec /
cycleTimeInMs` = 500 bodies — at the *first* state satisfying the exit
condition (dwell reached or time ceiling reached, whichever comes first);
each body advances elapsed time by exactly one cycle; the run is classified
`success` exactly when it exits below the ceiling (in which case the dwell
requirement is met) and `timeout` exactly when the ceiling was reached. -/
theorem C5_loop_terminates (p : MoveParams) (inputs : Nat → CycleInput) :
    (loopExitIndex p inputs ≤ timeoutInMilSec / cycleTimeInMs ∧
     loopExit (loopIter p inputs (loopExitIndex p inputs)) = true ∧
     ∀ j, j < loopExitIndex p inputs → loopExit (loopIter p inputs j) = false) ∧
    (∀ k, (loopIter p inputs (k + 1)).elapsedTimeInMs =
          (loopIter p inputs k).elapsedTimeInMs + cycleTimeInMs) ∧
    (moveLoopOutcome p inputs = Outcome.success ↔
      (moveLoopFinal p inputs).elapsedTimeInMs < timeoutInMilSec ∧
      (withinControlBoundsTimeReqmt : Int) ≤
        (moveLoopFinal p inputs).withinBoundsCounter) ∧
    (moveLoopOutcome p inputs = Outcome.timeout ↔
      timeoutInMilSec ≤ (moveLoopFinal p inputs).elapsedTimeInMs) := by
  have hexit : loopExit (moveLoopFinal p inputs) = true :=
    (loopExitIndex_spec p inputs).2.1
  rw [loopExit] at hexit
  simp only [Bool.or_eq_true, decide_eq_true_eq] at hexit
  refine ⟨loopExitIndex_spec p inputs, ?_, ?_, ?_⟩
  · intro k
    rfl
  · rw [moveLoopOutcome]
    by_cases h : timeoutInMilSec ≤ (moveLoopFinal p inputs).elapsedTimeInMs
    · rw [if_pos h]
      constructor
      · intro hc
        cases hc
      · intro hc
        omega
    · rw [if_neg h]
      refine ⟨fun _ => ⟨by omega, ?_⟩, fun _ => rfl⟩
      rcases hexit with h1 | h2
      · exact absurd h1 h
      · exact h2
  · rw [moveLoopOutcome]
    by_cases h : timeoutInMilSec ≤ (moveLoopFinal p inputs).elapsedTimeInMs
    · rw [if_pos h]
      exact ⟨fun _ => h, fun _ => rfl⟩
    · rw [if_neg h]
      constructor
      · intro hc
        cases hc
      · intro hc
        exact absurd hc h

/-- C5 witness: on the stationary run `p0`/`inputs0`, the first loop body
advances the elapsed time by one cycle time. -/
theorem C5_witness :
    (loopIter p0 inputs0 1).elapsedTimeInMs =
      (loopIter p0 inputs0 0).elapsedTimeInMs + cycleTimeInMs :=
  (C5_loop_terminates p0 inputs0).2.1 0

/-- On the path where verify, init and startPackage all succeed,
`moveByPositionOffset` runs the control loop, brakes, tears down, and
classifies the outcome. -/
theorem moveByPositionOffset_subscribed (env : MoveEnv) (p : MoveParams)
    (hv : env.verifyOk = true) (hi : env.initOk = true)
    (hs : env.startOk = true) :
    moveByPositionOffset env p =
      ⟨moveLoopOutcome p env.inputs,
       [SubEvent.started, SubEvent.removed],
       (List.range (loopExitIndex p env.inputs)).map (posYawCmdAt p env.inputs),
       brakeLoop 0⟩ := by
  simp [moveByPositionOffset, hv, hi, hs]

/-- C6: whenever the control loop is reached (the subscription phase
succeeded), the run issues brake commands — 50 of them, i.e. it brakes for
exactly the dwell duration `withinControlBoundsTimeReqmt` — before
returning, and this holds on both termination paths, which are exactly
`success` and `timeout`. -/
theorem C6_brake_on_every_path (env : MoveEnv) (p : MoveParams)
    (hv : env.verifyOk = true) (hi : env.initOk = true)
    (hs : env.startOk = true) :
    0 < (moveByPositionOffset env p).brakeCmdCount ∧
    cycleTimeInMs * (moveByPositionOffset env p).brakeCmdCount =
      withinControlBoundsTimeReqmt ∧
    ((moveByPositionOffset env p).outcome = Outcome.success ∨
     (moveByPositionOffset env p).outcome = Outcome.timeout) := by
  rw [moveByPositionOffset_subscribed env p hv hi hs]
  refine ⟨?_, ?_, ?_⟩
  · show 0 < brakeLoop 0
    rw [brakeLoop_zero]
    omega
  · show cycleTimeInMs * brakeLoop 0 = withinControlBoundsTimeReqmt
    rw [brakeLoop_zero]
    rfl
  · show moveLoopOutcome p env.inputs = Outcome.success ∨
      moveLoopOutcome p env.inputs = Outcome.timeout
    rw [moveLoopOutcome]
    split_ifs
    · exact Or.inr rfl
    · exact Or.inl rfl

/-- C6 witness: the brake guarantee on the concrete run `envMove0`/`p0`. -/
theorem C6_witness :
    0 < (moveByPositionOffset envMove0 p0).brakeCmdCount ∧
    cycleTimeInMs * (moveByPositionOffset envMove0 p0).brakeCmdCount =
      withinControlBoundsTimeReqmt ∧
    ((moveByPositionOffset envMove0 p0).outcome = Outcome.success ∨
     (moveByPositionOffset envMove0 p0).outcome = Outcome.timeout) :=
  C6_brake_on_every_path envMove0 p0 rfl rfl rfl

/-- C7: the first command sent carries the per-axis initial setpoints (the
desired x/y offsets clamped independently to magnitude `speedFactor` with
their own sign, exactly the offset itself when its magnitude is below
`speedFactor`, and 0 at 0) and the absolute, unclamped altitude target
`currentAltitude + zOffsetDesired`. -/
theorem C7_initial_setpoint (env : MoveEnv) (p : MoveParams)
    (hv : env.verifyOk = true) (hi : env.initOk = true)
    (hs : env.startOk = true) :
    (moveByPositionOffset env p).posYawCmds.head? =
      some ⟨initialAxisCmd p.xOffsetDesired, initialAxisCmd p.yOffsetDesired,
            p.currentAltitude + p.zOffsetDesired, p.yawCmdSent⟩ ∧
    (∀ d : ℚ, (|d| < speedFactor → initialAxisCmd d = d) ∧
              (speedFactor ≤ d → initialAxisCmd d = speedFactor) ∧
              (d ≤ -speedFactor → initialAxisCmd d = -speedFactor)) ∧
    initialAxisCmd 0 = 0 := by
  have hsf : speedFactor = 2 := rfl
  refine ⟨?_, ?_, ?_⟩
  · rw [moveByPositionOffset_subscribed env p hv hi hs]
    show ((List.range (loopExitIndex p env.inputs)).map
      (posYawCmdAt p env.inputs)).head? = _
    obtain ⟨m, hm⟩ : ∃ m, loopExitIndex p env.inputs = m + 1 :=
      ⟨loopExitIndex p env.inputs - 1, by
        have := loopExitIndex_pos p env.inputs
        omega⟩
    rw [hm, List.range_succ_eq_map]
    rfl
  · intro d
    refine ⟨?_, ?_, ?_⟩
    · intro h
      rw [abs_lt] at h
      rw [initialAxisCmd]
      split_ifs with h1 h2 h3 h4 <;> first | rfl | linarith [h.1, h.2]
    · intro h
      rw [initialAxisCmd]
      split_ifs with h1 h2 h3 h4 <;> first | rfl | linarith
    · intro h
      rw [initialAxisCmd]
      split_ifs with h1 h2 h3 h4 <;> first | rfl | linarith
  · rw [initialAxisCmd]
    norm_num

/-- C7 witness: the initial-setpoint description on the concrete run
`envMove0`/`p0`. -/
theorem C7_witness :
    (moveByPositionOffset envMove0 p0).posYawCmds.head? =
      some ⟨initialAxisCmd p0.xOffsetDesired, initialAxisCmd p0.yOffsetDesired,
            p0.currentAltitude + p0.zOffsetDesired, p0.yawCmdSent⟩ ∧
    (∀ d : ℚ, (|d| < speedFactor → initialAxisCmd d = d) ∧
              (speedFactor ≤ d → initialAxisCmd d = speedFactor) ∧
              (d ≤ -speedFactor → initialAxisCmd d = -speedFactor)) ∧
    initialAxisCmd 0 = 0 :=
  C7_initial_setpoint envMove0 p0 rfl rfl rfl

/-- `atan2` at the point (y, x) = (0, 1). -/
theorem atan2_zero_one : atan2 0 1 = 0 := by
  rw [atan2]
  rw [if_pos one_pos]
  norm_num

/-- C8: `toEulerAngle` maps the identity quaternion to zero roll, pitch and
yaw, and for every input quaternion the clamped pitch argument lies in
`[-1, 1]`, the domain of `asin` — so the out-of-domain case is
unreachable. -/
theorem C8_euler_identity_and_clamp :
    toEulerAngle ⟨1, 0, 0, 0⟩ = ⟨0, 0, 0⟩ ∧
    ∀ qd : QuaternionData,
      -1 ≤ clampedPitchArg qd ∧ clampedPitchArg qd ≤ 1 := by
  constructor
  · have h1 : clampedPitchArg ⟨1, 0, 0, 0⟩ = 0 := by
      norm_num [clampedPitchArg, pitchArgRaw]
    simp [toEulerAngle, h1, Real.arcsin_zero, atan2_zero_one]
  · intro qd
    have h : clampedPitchArg qd =
        if (if 1 < pitchArgRaw qd then 1 else pitchArgRaw qd) < -1 then -1
        else if 1 < pitchArgRaw qd then 1 else pitchArgRaw qd := rfl
    rw [h]
    split_ifs <;> constructor <;> linarith

/-- The degree-to-radian factor is nonzero. -/
theorem DEG2RAD_ne_zero : DEG2RAD ≠ 0 := by
  rw [DEG2RAD]
  exact div_ne_zero Real.pi_ne_zero (by norm_num)

/-- C9 counterexample: the yaw value sent with each position command (line
338) is *not* the radian quantity `yawDesiredRad`: at the degree input 30
the sent value is 30 while `yawDesiredRad` is π/6. -/
theorem C9_counterexample : yawCmdSentValue 30 ≠ yawDesiredRadOf 30 := by
  have hval : yawCmdSentValue 30 = 30 := by
    rw [yawCmdSentValue, yawDesiredRadOf]
    exact mul_div_cancel_left₀ 30 DEG2RAD_ne_zero
  intro h
  rw [hval, yawDesiredRadOf, DEG2RAD] at h
  have hpi : Real.pi < 3.15 := Real.pi_lt_d2
  have hpos : 0 < Real.pi := Real.pi_pos
  nlinarith

/-- C9 (amended): the degree inputs are converted to radians once at entry
(`yawDesiredRad`, `yawThresholdInRad`), and the yaw convergence comparison
uses these radian quantities; but the yaw value sent with every position
command is `yawDesiredRad / DEG2RAD`, i.e. converted *back* to degrees — it
equals the original degree input for every input. -/
theorem C9_amended_yaw_cmd :
    ∀ yawDesired : ℝ, yawCmdSentValue yawDesired = yawDesired := by
  intro yd
  rw [yawCmdSentValue, yawDesiredRadOf]
  exact mul_div_cancel_left₀ yd DEG2RAD_ne_zero

/-- C10: inside the loop, an axis command is reassigned in a cycle exactly
when that axis's remaining offset magnitude is strictly below
`speedFactor`, in which case it becomes the exact remaining offset; when
the remaining magnitude is at least `speedFactor`, the command keeps its
previous value (it is never re-clamped toward the goal). -/
theorem C10_stale_command (p : MoveParams) (s : MoveState) (inp : CycleInput) :
    ((|xRemainingAt p inp| < speedFactor →
        (loopStep p s inp).xCmd = xRemainingAt p inp) ∧
     (speedFactor ≤ |xRemainingAt p inp| →
        (loopStep p s inp).xCmd = s.xCmd)) ∧
    ((|yRemainingAt p inp| < speedFactor →
        (loopStep p s inp).yCmd = yRemainingAt p inp) ∧
     (speedFactor ≤ |yRemainingAt p inp| →
        (loopStep p s inp).yCmd = s.yCmd)) := by
  refine ⟨⟨?_, ?_⟩, ?_, ?_⟩ <;> intro h
  · show (if |xRemainingAt p inp| < speedFactor then xRemainingAt p inp
      else s.xCmd) = xRemainingAt p inp
    rw [if_pos h]
  · show (if |xRemainingAt p inp| < speedFactor then xRemainingAt p inp
      else s.xCmd) = s.xCmd
    rw [if_neg (not_lt.mpr h)]
  · show (if |yRemainingAt p inp| < speedFactor then yRemainingAt p inp
      else s.yCmd) = yRemainingAt p inp
    rw [if_pos h]
  · show (if |yRemainingAt p inp| < speedFactor then yRemainingAt p inp
      else s.yCmd) = s.yCmd
    rw [if_neg (not_lt.mpr h)]

/-- C10 witness: in state `sStale` (command 7) a cycle whose remaining x
offset is 5 (at least `speedFactor`) keeps the stale command 7, while a
cycle whose remaining x offset is 0 (below `speedFactor`) reassigns the
command to that exact remainder. -/
theorem C10_witness :
    (loopStep p0 sStale inpFar).xCmd = sStale.xCmd ∧
    (loopStep p0 sStale inpNear).xCmd = xRemainingAt p0 inpNear :=
  ⟨(C10_stale_command p0 sStale inpFar).1.2 (by
      show speedFactor ≤ |(0 : ℚ) - -5|
      norm_num [speedFactor]),
   (C10_stale_command p0 sStale inpNear).1.1 (by
      show |(0 : ℚ) - 0| < speedFactor
      norm_num [speedFactor])⟩
